import Mathlib

/-!
# CMS_2021_I1876311: diboson (WW, WZ, ZZ) event classification and normalisation

A shallow embedding of `src/CMS_2021_I1876311.cc`.

Modelling conventions.
* C++ `double` values (masses, charges, weights, histogram abscissae) are rationals; the
  only operations the analysis performs on them are comparisons with literals, one sum of
  two charges, one chain of two divisions and a multiplication.
* `pid()` is an unbounded `Int` (PDG codes of dressed leptons are `±11`, `±13`).
* Everything the analysis obtains from the framework and that is not under `src/` is a
  parameter: the identity test `isSame`, the invariant mass `mass` of a four-momentum,
  `crossSection`, `sumOfWeights` and the unit `picobarn`.
* The string-keyed map `_h` holds exactly the three histograms booked by `init`; it is a
  record with one field per key.
-/

namespace Rivet

/-- Energy-momentum vector; `operator+` of the framework adds component by component. -/
structure FourMomentum where
  E : ℚ
  px : ℚ
  py : ℚ
  pz : ℚ
deriving DecidableEq

instance : Add FourMomentum :=
  ⟨fun a b => ⟨a.E + b.E, a.px + b.px, a.py + b.py, a.pz + b.pz⟩⟩

/-- A dressed lepton as the analysis reads it: `pid()`, `charge()` and `momentum()`. -/
structure DressedLepton where
  pid : Int
  charge : ℚ
  momentum : FourMomentum
deriving DecidableEq

/-- The list returned by `particlesByPt()`. -/
abbrev Particles := List DressedLepton

/-- A one-dimensional histogram, kept as the record of its fills: each entry is the
abscissa of the fill and its current weight. -/
structure Histo1D where
  entries : List (ℚ × ℚ)
deriving DecidableEq

namespace Histo1D

/-- The call `fill(x)`: one more entry at `x`, with unit weight. -/
def fill (h : Histo1D) (x : ℚ) : Histo1D :=
  ⟨h.entries ++ [(x, 1)]⟩

/-- The call `scale(h, f)`: every weight is multiplied by `f`. -/
def scale (h : Histo1D) (f : ℚ) : Histo1D :=
  ⟨h.entries.map fun e => (e.1, e.2 * f)⟩

/-- Number of fills recorded. -/
def numEntries (h : Histo1D) : Nat :=
  h.entries.length

/-- Sum of the weights of the fills: the value the histogram reports. -/
def sumW (h : Histo1D) : ℚ :=
  (h.entries.map Prod.snd).sum

end Histo1D

/-- The member `map<string,Histo1DPtr> _h` with its three keys `"511"` (WW), `"517"` (WZ)
and `"5113"` (ZZ). -/
structure Histos where
  h511 : Histo1D
  h517 : Histo1D
  h5113 : Histo1D
deriving DecidableEq

/-- The method `init`: the three histograms are booked empty. -/
def init : Histos :=
  ⟨⟨[]⟩, ⟨[]⟩, ⟨[]⟩⟩

/-- The test applied to one ordered pair `(l1, l2)` inside the double loop of `analyze`
(lines 50 and 52): the two are not the same particle, their codes sum to zero and their
combined mass is below 4.0. -/
def lowMassPair (isSame : DressedLepton → DressedLepton → Bool) (mass : FourMomentum → ℚ)
    (l1 l2 : DressedLepton) : Bool :=
  (!isSame l1 l2 && decide (l1.pid + l2.pid = 0)) &&
    decide (mass (l1.momentum + l2.momentum) < 4.0)

/-- The double loop of `analyze` (lines 47 to 57): `true` when some ordered pair makes the
loop leave through `vetoEvent`. -/
def lowMassVeto (isSame : DressedLepton → DressedLepton → Bool) (mass : FourMomentum → ℚ)
    (dressedleptons : Particles) : Bool :=
  dressedleptons.any fun l1 => dressedleptons.any fun l2 => lowMassPair isSame mass l1 l2

/-- The `// WW` block (lines 60 to 64). -/
def analyzeWW (_h : Histos) (dressedleptons : Particles) : Histos :=
  match dressedleptons with
  | [l0, l1] =>
    if l0.charge + l1.charge = 0 then { _h with h511 := _h.h511.fill 5.020 } else _h
  | _ => _h

/-- The flag `onshellZ` of the `// WZ` block (lines 68 to 84) for the leptons at indices
0, 1 and 2. The short-circuit conjunction `60 < mll && mll < 120` is written as two nested
conditionals. -/
def onshellZ3 (mass : FourMomentum → ℚ) (l0 l1 l2 : DressedLepton) : Bool :=
  let onshellZ := false
  if |l0.pid + l1.pid + l2.pid| = 11 ∨ |l0.pid + l1.pid + l2.pid| = 13 then
    let onshellZ :=
      if l0.pid + l1.pid = 0 then
        let mll := mass (l0.momentum + l1.momentum)
        if 60 < mll then (if mll < 120 then true else onshellZ) else onshellZ
      else onshellZ
    let onshellZ :=
      if l0.pid + l2.pid = 0 then
        let mll := mass (l0.momentum + l2.momentum)
        if 60 < mll then (if mll < 120 then true else onshellZ) else onshellZ
      else onshellZ
    let onshellZ :=
      if l1.pid + l2.pid = 0 then
        let mll := mass (l1.momentum + l2.momentum)
        if 60 < mll then (if mll < 120 then true else onshellZ) else onshellZ
      else onshellZ
    onshellZ
  else onshellZ

/-- The `// WZ` block (lines 67 to 88). -/
def analyzeWZ (mass : FourMomentum → ℚ) (_h : Histos) (dressedleptons : Particles) : Histos :=
  match dressedleptons with
  | [l0, l1, l2] =>
    if onshellZ3 mass l0 l1 l2 = true then { _h with h517 := _h.h517.fill 5.020 } else _h
  | _ => _h

/-- The flag `onshellZ` of the `// ZZ` block (lines 92 to 125) for the leptons at indices
0, 1, 2 and 3. -/
def onshellZ4 (mass : FourMomentum → ℚ) (l0 l1 l2 l3 : DressedLepton) : Bool :=
  let onshellZ := false
  if l0.pid + l1.pid + l2.pid + l3.pid = 0 then
    let onshellZ :=
      if l0.pid + l1.pid = 0 then
        let mll1 := mass (l0.momentum + l1.momentum)
        let mll2 := mass (l2.momentum + l3.momentum)
        if 60 < mll1 ∧ mll1 < 120 then
          if 60 < mll2 ∧ mll2 < 120 then true else onshellZ
        else onshellZ
      else onshellZ
    let onshellZ :=
      if l0.pid + l2.pid = 0 then
        let mll1 := mass (l0.momentum + l2.momentum)
        let mll2 := mass (l1.momentum + l3.momentum)
        if 60 < mll1 ∧ mll1 < 120 then
          if 60 < mll2 ∧ mll2 < 120 then true else onshellZ
        else onshellZ
      else onshellZ
    let onshellZ :=
      if l0.pid + l3.pid = 0 then
        let mll1 := mass (l0.momentum + l3.momentum)
        let mll2 := mass (l1.momentum + l2.momentum)
        if 60 < mll1 ∧ mll1 < 120 then
          if 60 < mll2 ∧ mll2 < 120 then true else onshellZ
        else onshellZ
      else onshellZ
    onshellZ
  else onshellZ

/-- The `// ZZ` block (lines 91 to 129). -/
def analyzeZZ (mass : FourMomentum → ℚ) (_h : Histos) (dressedleptons : Particles) : Histos :=
  match dressedleptons with
  | [l0, l1, l2, l3] =>
    if onshellZ4 mass l0 l1 l2 l3 = true then { _h with h5113 := _h.h5113.fill 5.020 } else _h
  | _ => _h

/-- The method `analyze`: the per-event analysis, as a transformer of the histograms. `vetoEvent`
returns at once, leaving the histograms as they are. -/
def analyze (isSame : DressedLepton → DressedLepton → Bool) (mass : FourMomentum → ℚ)
    (_h : Histos) (dressedleptons : Particles) : Histos :=
  if dressedleptons.length < 2 ∨ dressedleptons.length > 4 then _h
  else if lowMassVeto isSame mass dressedleptons = true then _h
  else
    let _h := analyzeWW _h dressedleptons
    let _h := analyzeWZ mass _h dressedleptons
    analyzeZZ mass _h dressedleptons

/-- The method `finalize`: the three histograms are scaled by `norm`. -/
def finalize (crossSection picobarn sumOfWeights : ℚ) (_h : Histos) : Histos :=
  let norm := if sumOfWeights ≠ 0 then crossSection / picobarn / sumOfWeights else 1.0
  { h511 := _h.h511.scale norm, h517 := _h.h517.scale norm, h5113 := _h.h5113.scale norm }

/-! ## Definitions used to state the claims -/

/-- The cut of `init` (line 27) on a lepton code, `abspid == ELECTRON || abspid == MUON`,
with the framework's values 11 for `PID::ELECTRON` and 13 for `PID::MUON`: the codes it
accepts are +11, -11, +13 and -13. -/
def isLeptonCode (pid : Int) : Bool :=
  decide (|pid| = 11) || decide (|pid| = 13)

/-- The sum of two histograms: the fills of the first followed by the fills of the
second. -/
def Histo1D.add (a b : Histo1D) : Histo1D :=
  ⟨a.entries ++ b.entries⟩

/-- The sum of two sets of histograms, histogram by histogram. -/
def Histos.add (a b : Histos) : Histos :=
  ⟨a.h511.add b.h511, a.h517.add b.h517, a.h5113.add b.h5113⟩

/-- The low-mass veto in the words of the specification: one pass over the unordered pairs
of positions `i < j`, looking for a pair whose codes sum to zero and whose mass is below
4.0. There is no identity test, since a position is never paired with itself. -/
def unorderedLowMassVeto (mass : FourMomentum → ℚ) : Particles → Bool
  | [] => false
  | l1 :: rest =>
    (rest.any fun l2 =>
      decide (l1.pid + l2.pid = 0) && decide (mass (l1.momentum + l2.momentum) < 4.0)) ||
    unorderedLowMassVeto mass rest

/-- The flag of a three-lepton classifier that omits the code-sum gate of line 69 and only
runs the three pair tests of lines 72 to 83. -/
def onshellZ3NoGate (mass : FourMomentum → ℚ) (l0 l1 l2 : DressedLepton) : Bool :=
  let onshellZ := false
  let onshellZ :=
    if l0.pid + l1.pid = 0 then
      let mll := mass (l0.momentum + l1.momentum)
      if 60 < mll then (if mll < 120 then true else onshellZ) else onshellZ
    else onshellZ
  let onshellZ :=
    if l0.pid + l2.pid = 0 then
      let mll := mass (l0.momentum + l2.momentum)
      if 60 < mll then (if mll < 120 then true else onshellZ) else onshellZ
    else onshellZ
  let onshellZ :=
    if l1.pid + l2.pid = 0 then
      let mll := mass (l1.momentum + l2.momentum)
      if 60 < mll then (if mll < 120 then true else onshellZ) else onshellZ
    else onshellZ
  onshellZ

/-- The `// WZ` block with the gate-free flag. -/
def analyzeWZNoGate (mass : FourMomentum → ℚ) (_h : Histos) (dressedleptons : Particles) :
    Histos :=
  match dressedleptons with
  | [l0, l1, l2] =>
    if onshellZ3NoGate mass l0 l1 l2 = true then { _h with h517 := _h.h517.fill 5.020 }
    else _h
  | _ => _h

/-- The analysis with the gate-free `// WZ` block; everything else is as in `analyze`. -/
def analyzeNoGate (isSame : DressedLepton → DressedLepton → Bool) (mass : FourMomentum → ℚ)
    (_h : Histos) (dressedleptons : Particles) : Histos :=
  if dressedleptons.length < 2 ∨ dressedleptons.length > 4 then _h
  else if lowMassVeto isSame mass dressedleptons = true then _h
  else
    let _h := analyzeWW _h dressedleptons
    let _h := analyzeWZNoGate mass _h dressedleptons
    analyzeZZ mass _h dressedleptons

/-- The charge of a lepton is the one its code determines: codes +11 and +13 carry charge
-1, codes -11 and -13 carry charge +1. -/
def chargeFromCode (l : DressedLepton) : Prop :=
  ((l.pid = 11 ∨ l.pid = 13) ∧ l.charge = -1) ∨ ((l.pid = -11 ∨ l.pid = -13) ∧ l.charge = 1)

/-- The total electric charge of the leptons of an event. -/
def totalCharge (dressedleptons : Particles) : ℚ :=
  (dressedleptons.map DressedLepton.charge).sum

/-! ## Fixtures used to evaluate the analysis on concrete events -/

/-- A lepton with the given code and charge whose four-momentum is `(e, 0, 0, 0)`. -/
def lep (pid : Int) (charge e : ℚ) : DressedLepton :=
  ⟨pid, charge, ⟨e, 0, 0, 0⟩⟩

/-- A stand-in for the framework's mass: the energy component (the mass of a system at
rest). -/
def restMass (p : FourMomentum) : ℚ :=
  p.E

/-- A stand-in for the framework's identity test: equal code and equal momentum. -/
def samePidMom (a b : DressedLepton) : Bool :=
  decide (a.pid = b.pid) && decide (a.momentum = b.momentum)

/-! ## General lemmas -/

theorem FourMomentum.add_comm (a b : FourMomentum) : a + b = b + a := by
  show FourMomentum.mk _ _ _ _ = FourMomentum.mk _ _ _ _
  congr 1 <;> ring

theorem analyze_of_length_out (isSame : DressedLepton → DressedLepton → Bool)
    (mass : FourMomentum → ℚ) (_h : Histos) (ls : Particles)
    (hlen : ls.length < 2 ∨ ls.length > 4) : analyze isSame mass _h ls = _h := by
  unfold analyze
  rw [if_pos hlen]

theorem FourMomentum.add_E (a b : FourMomentum) : (a + b).E = a.E + b.E := rfl

theorem restMass_lep_add (p q : Int) (c d e f : ℚ) :
    restMass ((lep p c e).momentum + (lep q d f).momentum) = e + f := rfl

theorem four_point_zero : (4.0 : ℚ) = 4 := by norm_num

theorem lowMassPair_eq_true_iff (isSame : DressedLepton → DressedLepton → Bool)
    (mass : FourMomentum → ℚ) (l1 l2 : DressedLepton) :
    lowMassPair isSame mass l1 l2 = true ↔
      isSame l1 l2 = false ∧ l1.pid + l2.pid = 0 ∧ mass (l1.momentum + l2.momentum) < 4 := by
  unfold lowMassPair
  rw [four_point_zero]
  simp [and_assoc]

theorem lowMassVeto_eq_true_iff (isSame : DressedLepton → DressedLepton → Bool)
    (mass : FourMomentum → ℚ) (ls : Particles) :
    lowMassVeto isSame mass ls = true ↔
      ∃ l1 ∈ ls, ∃ l2 ∈ ls, isSame l1 l2 = false ∧ l1.pid + l2.pid = 0 ∧
        mass (l1.momentum + l2.momentum) < 4 := by
  unfold lowMassVeto
  simp only [List.any_eq_true, lowMassPair_eq_true_iff]

theorem onshellZ3_eq_true_iff (mass : FourMomentum → ℚ) (l0 l1 l2 : DressedLepton) :
    onshellZ3 mass l0 l1 l2 = true ↔
      (|l0.pid + l1.pid + l2.pid| = 11 ∨ |l0.pid + l1.pid + l2.pid| = 13) ∧
      ((l0.pid + l1.pid = 0 ∧ 60 < mass (l0.momentum + l1.momentum) ∧
          mass (l0.momentum + l1.momentum) < 120) ∨
       (l0.pid + l2.pid = 0 ∧ 60 < mass (l0.momentum + l2.momentum) ∧
          mass (l0.momentum + l2.momentum) < 120) ∨
       (l1.pid + l2.pid = 0 ∧ 60 < mass (l1.momentum + l2.momentum) ∧
          mass (l1.momentum + l2.momentum) < 120)) := by
  unfold onshellZ3
  by_cases hg : |l0.pid + l1.pid + l2.pid| = 11 ∨ |l0.pid + l1.pid + l2.pid| = 13
  · rw [if_pos hg]
    refine Iff.trans ?_ (and_iff_right hg).symm
    by_cases h01 : l0.pid + l1.pid = 0 <;> by_cases h02 : l0.pid + l2.pid = 0 <;>
      by_cases h12 : l1.pid + l2.pid = 0 <;>
      by_cases a1 : 60 < mass (l0.momentum + l1.momentum) <;>
      by_cases a2 : mass (l0.momentum + l1.momentum) < 120 <;>
      by_cases b1 : 60 < mass (l0.momentum + l2.momentum) <;>
      by_cases b2 : mass (l0.momentum + l2.momentum) < 120 <;>
      by_cases c1 : 60 < mass (l1.momentum + l2.momentum) <;>
      by_cases c2 : mass (l1.momentum + l2.momentum) < 120 <;>
      simp [h01, h02, h12, a1, a2, b1, b2, c1, c2]
  · simp [if_neg hg, hg]

theorem onshellZ4_eq_true_iff (mass : FourMomentum → ℚ) (l0 l1 l2 l3 : DressedLepton) :
    onshellZ4 mass l0 l1 l2 l3 = true ↔
      l0.pid + l1.pid + l2.pid + l3.pid = 0 ∧
      ((l0.pid + l1.pid = 0 ∧
          (60 < mass (l0.momentum + l1.momentum) ∧ mass (l0.momentum + l1.momentum) < 120) ∧
          (60 < mass (l2.momentum + l3.momentum) ∧ mass (l2.momentum + l3.momentum) < 120)) ∨
       (l0.pid + l2.pid = 0 ∧
          (60 < mass (l0.momentum + l2.momentum) ∧ mass (l0.momentum + l2.momentum) < 120) ∧
          (60 < mass (l1.momentum + l3.momentum) ∧ mass (l1.momentum + l3.momentum) < 120)) ∨
       (l0.pid + l3.pid = 0 ∧
          (60 < mass (l0.momentum + l3.momentum) ∧ mass (l0.momentum + l3.momentum) < 120) ∧
          (60 < mass (l1.momentum + l2.momentum) ∧ mass (l1.momentum + l2.momentum) < 120))) := by
  unfold onshellZ4
  by_cases hg : l0.pid + l1.pid + l2.pid + l3.pid = 0
  · rw [if_pos hg]
    refine Iff.trans ?_ (and_iff_right hg).symm
    by_cases h01 : l0.pid + l1.pid = 0 <;> by_cases h02 : l0.pid + l2.pid = 0 <;>
      by_cases h03 : l0.pid + l3.pid = 0 <;>
      by_cases a1 : 60 < mass (l0.momentum + l1.momentum) ∧
        mass (l0.momentum + l1.momentum) < 120 <;>
      by_cases a2 : 60 < mass (l2.momentum + l3.momentum) ∧
        mass (l2.momentum + l3.momentum) < 120 <;>
      by_cases b1 : 60 < mass (l0.momentum + l2.momentum) ∧
        mass (l0.momentum + l2.momentum) < 120 <;>
      by_cases b2 : 60 < mass (l1.momentum + l3.momentum) ∧
        mass (l1.momentum + l3.momentum) < 120 <;>
      by_cases c1 : 60 < mass (l0.momentum + l3.momentum) ∧
        mass (l0.momentum + l3.momentum) < 120 <;>
      by_cases c2 : 60 < mass (l1.momentum + l2.momentum) ∧
        mass (l1.momentum + l2.momentum) < 120 <;>
      simp only [h01, h02, h03, a1, a2, b1, b2, c1, c2, if_true, if_false, true_and,
        false_and, and_true, and_false, or_true, or_false, true_or, false_or, and_self,
        Bool.false_eq_true]
  · simp [if_neg hg, hg]

theorem analyze_of_veto (isSame : DressedLepton → DressedLepton → Bool)
    (mass : FourMomentum → ℚ) (_h : Histos) (ls : Particles)
    (hv : lowMassVeto isSame mass ls = true) : analyze isSame mass _h ls = _h := by
  unfold analyze
  split_ifs <;> rfl

theorem analyze_two (isSame : DressedLepton → DressedLepton → Bool)
    (mass : FourMomentum → ℚ) (_h : Histos) (l0 l1 : DressedLepton)
    (hv : lowMassVeto isSame mass [l0, l1] = false) :
    analyze isSame mass _h [l0, l1] =
      if l0.charge + l1.charge = 0 then { _h with h511 := _h.h511.fill 5.020 } else _h := by
  simp [analyze, hv, analyzeWW, analyzeWZ, analyzeZZ]

theorem analyze_three (isSame : DressedLepton → DressedLepton → Bool)
    (mass : FourMomentum → ℚ) (_h : Histos) (l0 l1 l2 : DressedLepton)
    (hv : lowMassVeto isSame mass [l0, l1, l2] = false) :
    analyze isSame mass _h [l0, l1, l2] =
      if onshellZ3 mass l0 l1 l2 = true then { _h with h517 := _h.h517.fill 5.020 }
      else _h := by
  simp [analyze, hv, analyzeWW, analyzeWZ, analyzeZZ]

theorem analyze_four (isSame : DressedLepton → DressedLepton → Bool)
    (mass : FourMomentum → ℚ) (_h : Histos) (l0 l1 l2 l3 : DressedLepton)
    (hv : lowMassVeto isSame mass [l0, l1, l2, l3] = false) :
    analyze isSame mass _h [l0, l1, l2, l3] =
      if onshellZ4 mass l0 l1 l2 l3 = true then { _h with h5113 := _h.h5113.fill 5.020 }
      else _h := by
  simp [analyze, hv, analyzeWW, analyzeWZ, analyzeZZ]

theorem Histo1D.fill_ne (h : Histo1D) (x : ℚ) : h.fill x ≠ h := by
  intro e
  have hl := congrArg Histo1D.numEntries e
  simp [Histo1D.fill, Histo1D.numEntries] at hl

theorem Histo1D.numEntries_fill (h : Histo1D) (x : ℚ) :
    (h.fill x).numEntries = h.numEntries + 1 := by
  simp [Histo1D.fill, Histo1D.numEntries]

theorem Histo1D.sumW_fill (h : Histo1D) (x : ℚ) : (h.fill x).sumW = h.sumW + 1 := by
  simp [Histo1D.fill, Histo1D.sumW]

theorem Histo1D.scale_one (h : Histo1D) : h.scale 1 = h := by
  cases h
  simp [Histo1D.scale]

theorem Histo1D.sumW_scale (h : Histo1D) (f : ℚ) : (h.scale f).sumW = h.sumW * f := by
  cases h with
  | mk es =>
    simp only [Histo1D.scale, Histo1D.sumW]
    induction es with
    | nil => simp
    | cons e es ih =>
      simp only [List.map_cons, List.sum_cons, ih]
      ring

theorem Histo1D.numEntries_scale (h : Histo1D) (f : ℚ) :
    (h.scale f).numEntries = h.numEntries := by
  simp [Histo1D.scale, Histo1D.numEntries]

theorem isLeptonCode_iff (pid : Int) :
    isLeptonCode pid = true ↔ pid = 11 ∨ pid = -11 ∨ pid = 13 ∨ pid = -13 := by
  unfold isLeptonCode
  rw [Bool.or_eq_true, decide_eq_true_eq, decide_eq_true_eq,
    abs_eq (by norm_num : (0 : Int) ≤ 11), abs_eq (by norm_num : (0 : Int) ≤ 13)]
  tauto

theorem Histo1D.add_empty (a : Histo1D) : a.add ⟨[]⟩ = a := by
  cases a
  simp [Histo1D.add]

theorem Histo1D.add_fill_empty (a : Histo1D) (x : ℚ) :
    a.add ((Histo1D.mk []).fill x) = a.fill x := by
  simp [Histo1D.add, Histo1D.fill]

theorem Histo1D.sumW_add (a b : Histo1D) : (a.add b).sumW = a.sumW + b.sumW := by
  simp [Histo1D.add, Histo1D.sumW]

theorem analyze_eq_add_init (isSame : DressedLepton → DressedLepton → Bool)
    (mass : FourMomentum → ℚ) (s : Histos) (e : Particles) :
    analyze isSame mass s e = s.add (analyze isSame mass init e) := by
  have hid : s.add init = s := by
    cases s
    simp [Histos.add, init, Histo1D.add_empty]
  by_cases hv : lowMassVeto isSame mass e = true
  · rw [analyze_of_veto isSame mass s e hv, analyze_of_veto isSame mass init e hv, hid]
  · have hv2 : lowMassVeto isSame mass e = false := by simpa using hv
    match e, hv2 with
    | [], _ =>
      rw [analyze_of_length_out _ _ s _ (by simp), analyze_of_length_out _ _ init _ (by simp),
        hid]
    | [_], _ =>
      rw [analyze_of_length_out _ _ s _ (by simp), analyze_of_length_out _ _ init _ (by simp),
        hid]
    | [l0, l1], hv2 =>
      rw [analyze_two isSame mass s l0 l1 hv2, analyze_two isSame mass init l0 l1 hv2]
      split_ifs
      · cases s
        simp [Histos.add, init, Histo1D.add_empty, Histo1D.add_fill_empty]
      · exact hid.symm
    | [l0, l1, l2], hv2 =>
      rw [analyze_three isSame mass s l0 l1 l2 hv2, analyze_three isSame mass init l0 l1 l2 hv2]
      split_ifs
      · cases s
        simp [Histos.add, init, Histo1D.add_empty, Histo1D.add_fill_empty]
      · exact hid.symm
    | [l0, l1, l2, l3], hv2 =>
      rw [analyze_four isSame mass s l0 l1 l2 l3 hv2,
        analyze_four isSame mass init l0 l1 l2 l3 hv2]
      split_ifs
      · cases s
        simp [Histos.add, init, Histo1D.add_empty, Histo1D.add_fill_empty]
      · exact hid.symm
    | _ :: _ :: _ :: _ :: _ :: _, _ =>
      rw [analyze_of_length_out _ _ s _ (by simp), analyze_of_length_out _ _ init _ (by simp),
        hid]

theorem unorderedLowMassVeto_eq_true_iff_not_pairwise (mass : FourMomentum → ℚ)
    (ls : Particles) :
    unorderedLowMassVeto mass ls = true ↔
      ¬ ls.Pairwise fun a b =>
        ¬ (a.pid + b.pid = 0 ∧ mass (a.momentum + b.momentum) < 4) := by
  induction ls with
  | nil => simp [unorderedLowMassVeto]
  | cons l1 rest ih =>
    rw [unorderedLowMassVeto, Bool.or_eq_true, ih, List.pairwise_cons, four_point_zero]
    simp only [List.any_eq_true, Bool.and_eq_true, decide_eq_true_eq]
    constructor
    · rintro (⟨l2, hm, hp⟩ | hn)
      · exact fun hc => hc.1 l2 hm hp
      · exact fun hc => hn hc.2
    · intro hn
      by_cases hp : List.Pairwise
          (fun a b => ¬ (a.pid + b.pid = 0 ∧ mass (a.momentum + b.momentum) < 4)) rest
      · left
        by_contra hall
        exact hn ⟨fun l2 hm hP => hall ⟨l2, hm, hP⟩, hp⟩
      · exact Or.inr hp

theorem unorderedLowMassVeto_eq_true_iff (mass : FourMomentum → ℚ) (ls : Particles) :
    unorderedLowMassVeto mass ls = true ↔
      ∃ (i j : Nat) (hi : i < ls.length) (hj : j < ls.length), i < j ∧
        ls[i].pid + ls[j].pid = 0 ∧ mass (ls[i].momentum + ls[j].momentum) < 4 := by
  rw [unorderedLowMassVeto_eq_true_iff_not_pairwise, List.pairwise_iff_getElem]
  constructor
  · intro hn
    by_contra hall
    apply hn
    intro i j hi hj hij hP
    exact hall ⟨i, j, hi, hj, hij, hP⟩
  · rintro ⟨i, j, hi, hj, hij, hP⟩ hall
    exact hall i j hi hj hij hP

theorem lowMassVeto_perm (isSame : DressedLepton → DressedLepton → Bool)
    (mass : FourMomentum → ℚ) {ls ls' : Particles} (hp : ls.Perm ls') :
    lowMassVeto isSame mass ls = lowMassVeto isSame mass ls' := by
  rw [Bool.eq_iff_iff, lowMassVeto_eq_true_iff, lowMassVeto_eq_true_iff]
  constructor
  · rintro ⟨l1, h1, l2, h2, h⟩
    exact ⟨l1, hp.mem_iff.1 h1, l2, hp.mem_iff.1 h2, h⟩
  · rintro ⟨l1, h1, l2, h2, h⟩
    exact ⟨l1, hp.mem_iff.2 h1, l2, hp.mem_iff.2 h2, h⟩

theorem onshellZ3_swap01 (mass : FourMomentum → ℚ) (a b c : DressedLepton) :
    onshellZ3 mass b a c = onshellZ3 mass a b c := by
  rw [Bool.eq_iff_iff, onshellZ3_eq_true_iff, onshellZ3_eq_true_iff]
  have e : b.pid + a.pid + c.pid = a.pid + b.pid + c.pid := by ring
  rw [e, add_comm b.pid a.pid, FourMomentum.add_comm b.momentum a.momentum]
  tauto

theorem onshellZ3_swap12 (mass : FourMomentum → ℚ) (a b c : DressedLepton) :
    onshellZ3 mass a c b = onshellZ3 mass a b c := by
  rw [Bool.eq_iff_iff, onshellZ3_eq_true_iff, onshellZ3_eq_true_iff]
  have e : a.pid + c.pid + b.pid = a.pid + b.pid + c.pid := by ring
  rw [e, add_comm c.pid b.pid, FourMomentum.add_comm c.momentum b.momentum]
  tauto

theorem onshellZ4_swap01 (mass : FourMomentum → ℚ) (a b c d : DressedLepton) :
    onshellZ4 mass b a c d = onshellZ4 mass a b c d := by
  rw [Bool.eq_iff_iff, onshellZ4_eq_true_iff, onshellZ4_eq_true_iff]
  have e : b.pid + a.pid + c.pid + d.pid = a.pid + b.pid + c.pid + d.pid := by ring
  rw [e, add_comm b.pid a.pid, FourMomentum.add_comm b.momentum a.momentum]
  constructor
  · rintro ⟨ht, h | ⟨hs, h1, h2⟩ | ⟨hs, h1, h2⟩⟩
    · exact ⟨ht, Or.inl h⟩
    · exact ⟨ht, Or.inr (Or.inr ⟨by omega, h2, h1⟩)⟩
    · exact ⟨ht, Or.inr (Or.inl ⟨by omega, h2, h1⟩)⟩
  · rintro ⟨ht, h | ⟨hs, h1, h2⟩ | ⟨hs, h1, h2⟩⟩
    · exact ⟨ht, Or.inl h⟩
    · exact ⟨ht, Or.inr (Or.inr ⟨by omega, h2, h1⟩)⟩
    · exact ⟨ht, Or.inr (Or.inl ⟨by omega, h2, h1⟩)⟩

theorem onshellZ4_swap12 (mass : FourMomentum → ℚ) (a b c d : DressedLepton) :
    onshellZ4 mass a c b d = onshellZ4 mass a b c d := by
  rw [Bool.eq_iff_iff, onshellZ4_eq_true_iff, onshellZ4_eq_true_iff]
  have e : a.pid + c.pid + b.pid + d.pid = a.pid + b.pid + c.pid + d.pid := by ring
  rw [e, FourMomentum.add_comm c.momentum b.momentum]
  constructor
  · rintro ⟨ht, h | h | h⟩
    · exact ⟨ht, Or.inr (Or.inl h)⟩
    · exact ⟨ht, Or.inl h⟩
    · exact ⟨ht, Or.inr (Or.inr h)⟩
  · rintro ⟨ht, h | h | h⟩
    · exact ⟨ht, Or.inr (Or.inl h)⟩
    · exact ⟨ht, Or.inl h⟩
    · exact ⟨ht, Or.inr (Or.inr h)⟩

theorem onshellZ4_swap23 (mass : FourMomentum → ℚ) (a b c d : DressedLepton) :
    onshellZ4 mass a b d c = onshellZ4 mass a b c d := by
  rw [Bool.eq_iff_iff, onshellZ4_eq_true_iff, onshellZ4_eq_true_iff]
  have e : a.pid + b.pid + d.pid + c.pid = a.pid + b.pid + c.pid + d.pid := by ring
  rw [e, FourMomentum.add_comm d.momentum c.momentum]
  constructor
  · rintro ⟨ht, h | h | h⟩
    · exact ⟨ht, Or.inl h⟩
    · exact ⟨ht, Or.inr (Or.inr h)⟩
    · exact ⟨ht, Or.inr (Or.inl h)⟩
  · rintro ⟨ht, h | h | h⟩
    · exact ⟨ht, Or.inl h⟩
    · exact ⟨ht, Or.inr (Or.inr h)⟩
    · exact ⟨ht, Or.inr (Or.inl h)⟩

theorem analyze_swap2 (isSame : DressedLepton → DressedLepton → Bool)
    (mass : FourMomentum → ℚ) (_h : Histos) (x y : DressedLepton) :
    analyze isSame mass _h [y, x] = analyze isSame mass _h [x, y] := by
  have hp := lowMassVeto_perm isSame mass (List.Perm.swap x y [])
  by_cases hv : lowMassVeto isSame mass [x, y] = true
  · rw [analyze_of_veto _ _ _ _ hv, analyze_of_veto _ _ _ _ (hp.trans hv)]
  · have hv2 : lowMassVeto isSame mass [x, y] = false := by simpa using hv
    rw [analyze_two _ _ _ _ _ hv2, analyze_two _ _ _ _ _ (hp.trans hv2),
      add_comm y.charge x.charge]

theorem analyze_swap3 (isSame : DressedLepton → DressedLepton → Bool)
    (mass : FourMomentum → ℚ) (_h : Histos) (a b c a' b' c' : DressedLepton)
    (hp : [a', b', c'].Perm [a, b, c])
    (hz : onshellZ3 mass a' b' c' = onshellZ3 mass a b c) :
    analyze isSame mass _h [a', b', c'] = analyze isSame mass _h [a, b, c] := by
  have hp := lowMassVeto_perm isSame mass hp
  by_cases hv : lowMassVeto isSame mass [a, b, c] = true
  · rw [analyze_of_veto _ _ _ _ hv, analyze_of_veto _ _ _ _ (hp.trans hv)]
  · have hv2 : lowMassVeto isSame mass [a, b, c] = false := by simpa using hv
    rw [analyze_three _ _ _ _ _ _ hv2, analyze_three _ _ _ _ _ _ (hp.trans hv2), hz]

theorem analyze_swap4 (isSame : DressedLepton → DressedLepton → Bool)
    (mass : FourMomentum → ℚ) (_h : Histos) (a b c d a' b' c' d' : DressedLepton)
    (hp : [a', b', c', d'].Perm [a, b, c, d])
    (hz : onshellZ4 mass a' b' c' d' = onshellZ4 mass a b c d) :
    analyze isSame mass _h [a', b', c', d'] = analyze isSame mass _h [a, b, c, d] := by
  have hp := lowMassVeto_perm isSame mass hp
  by_cases hv : lowMassVeto isSame mass [a, b, c, d] = true
  · rw [analyze_of_veto _ _ _ _ hv, analyze_of_veto _ _ _ _ (hp.trans hv)]
  · have hv2 : lowMassVeto isSame mass [a, b, c, d] = false := by simpa using hv
    rw [analyze_four _ _ _ _ _ _ _ hv2, analyze_four _ _ _ _ _ _ _ (hp.trans hv2), hz]

theorem analyze_swap_at (isSame : DressedLepton → DressedLepton → Bool)
    (mass : FourMomentum → ℚ) (_h : Histos) (pre l : Particles) (x y : DressedLepton) :
    analyze isSame mass _h (pre ++ y :: x :: l) = analyze isSame mass _h (pre ++ x :: y :: l) := by
  by_cases hlen : pre.length + l.length ≤ 2
  · rcases pre with _ | ⟨p, _ | ⟨q, _ | ⟨r, pre⟩⟩⟩ <;>
      rcases l with _ | ⟨c, _ | ⟨d, _ | ⟨e, l⟩⟩⟩ <;>
      simp only [List.length_cons, List.length_nil] at hlen <;>
      try omega
    · exact analyze_swap2 isSame mass _h x y
    · exact analyze_swap3 isSame mass _h x y c y x c (List.Perm.swap x y [c])
        (onshellZ3_swap01 mass x y c)
    · exact analyze_swap4 isSame mass _h x y c d y x c d (List.Perm.swap x y [c, d])
        (onshellZ4_swap01 mass x y c d)
    · exact analyze_swap3 isSame mass _h p x y p y x ((List.Perm.swap x y []).cons p)
        (onshellZ3_swap12 mass p x y)
    · exact analyze_swap4 isSame mass _h p x y c p y x c ((List.Perm.swap x y [c]).cons p)
        (onshellZ4_swap12 mass p x y c)
    · exact analyze_swap4 isSame mass _h p q x y p q y x
        (((List.Perm.swap x y []).cons q).cons p) (onshellZ4_swap23 mass p q x y)
  · rw [analyze_of_length_out, analyze_of_length_out]
    · right
      simp only [List.length_append, List.length_cons]
      omega
    · right
      simp only [List.length_append, List.length_cons]
      omega

theorem analyze_perm_append (isSame : DressedLepton → DressedLepton → Bool)
    (mass : FourMomentum → ℚ) (_h : Histos) {l1 l2 : Particles} (hp : l1.Perm l2) :
    ∀ pre : Particles,
      analyze isSame mass _h (pre ++ l1) = analyze isSame mass _h (pre ++ l2) := by
  induction hp with
  | nil => intro pre; rfl
  | cons x _ ih =>
    intro pre
    have h := ih (pre ++ [x])
    simpa only [List.append_assoc, List.singleton_append] using h
  | swap x y l => intro pre; exact analyze_swap_at isSame mass _h pre l x y
  | trans _ _ ih1 ih2 => intro pre; exact (ih1 pre).trans (ih2 pre)

theorem onshellZ3NoGate_eq_true_iff (mass : FourMomentum → ℚ) (l0 l1 l2 : DressedLepton) :
    onshellZ3NoGate mass l0 l1 l2 = true ↔
      ((l0.pid + l1.pid = 0 ∧ 60 < mass (l0.momentum + l1.momentum) ∧
          mass (l0.momentum + l1.momentum) < 120) ∨
       (l0.pid + l2.pid = 0 ∧ 60 < mass (l0.momentum + l2.momentum) ∧
          mass (l0.momentum + l2.momentum) < 120) ∨
       (l1.pid + l2.pid = 0 ∧ 60 < mass (l1.momentum + l2.momentum) ∧
          mass (l1.momentum + l2.momentum) < 120)) := by
  unfold onshellZ3NoGate
  by_cases h01 : l0.pid + l1.pid = 0 <;> by_cases h02 : l0.pid + l2.pid = 0 <;>
    by_cases h12 : l1.pid + l2.pid = 0 <;>
    by_cases a1 : 60 < mass (l0.momentum + l1.momentum) <;>
    by_cases a2 : mass (l0.momentum + l1.momentum) < 120 <;>
    by_cases b1 : 60 < mass (l0.momentum + l2.momentum) <;>
    by_cases b2 : mass (l0.momentum + l2.momentum) < 120 <;>
    by_cases c1 : 60 < mass (l1.momentum + l2.momentum) <;>
    by_cases c2 : mass (l1.momentum + l2.momentum) < 120 <;>
    simp [h01, h02, h12, a1, a2, b1, b2, c1, c2]

theorem abs_lepton_code (pid : Int) (h : isLeptonCode pid = true) :
    |pid| = 11 ∨ |pid| = 13 := by
  unfold isLeptonCode at h
  simpa using h

theorem onshellZ3_eq_noGate (mass : FourMomentum → ℚ) (l0 l1 l2 : DressedLepton)
    (h0 : isLeptonCode l0.pid = true) (h1 : isLeptonCode l1.pid = true)
    (h2 : isLeptonCode l2.pid = true) :
    onshellZ3 mass l0 l1 l2 = onshellZ3NoGate mass l0 l1 l2 := by
  rw [Bool.eq_iff_iff, onshellZ3_eq_true_iff, onshellZ3NoGate_eq_true_iff]
  constructor
  · exact fun h => h.2
  · intro h
    refine ⟨?_, h⟩
    rcases h with ⟨hs, -⟩ | ⟨hs, -⟩ | ⟨hs, -⟩
    · have e : l0.pid + l1.pid + l2.pid = l2.pid := by omega
      rw [e]
      exact abs_lepton_code _ h2
    · have e : l0.pid + l1.pid + l2.pid = l1.pid := by omega
      rw [e]
      exact abs_lepton_code _ h1
    · have e : l0.pid + l1.pid + l2.pid = l0.pid := by omega
      rw [e]
      exact abs_lepton_code _ h0

theorem charge_cancel (a b : DressedLepton) (ha : chargeFromCode a) (hb : chargeFromCode b)
    (hs : a.pid + b.pid = 0) : a.charge + b.charge = 0 := by
  unfold chargeFromCode at ha hb
  rcases ha with ⟨ha, ca⟩ | ⟨ha, ca⟩ <;> rcases hb with ⟨hb, cb⟩ | ⟨hb, cb⟩
  · exfalso; omega
  · rw [ca, cb]; norm_num
  · rw [ca, cb]; norm_num
  · exfalso; omega

theorem charge_unit (a : DressedLepton) (ha : chargeFromCode a) :
    a.charge = 1 ∨ a.charge = -1 := by
  unfold chargeFromCode at ha
  rcases ha with ⟨-, ca⟩ | ⟨-, ca⟩
  · exact Or.inr ca
  · exact Or.inl ca

theorem lepton_code_ne_zero (pid : Int) (h : isLeptonCode pid = true) : pid ≠ 0 := by
  rw [isLeptonCode_iff] at h
  omega

/-! ## Claims -/

/-- C1: an event whose dressed-lepton list has a length other than 2, 3 or 4 (0, 1, or 5
and more) leaves all three histograms exactly as they were, whatever the codes, charges
and momenta of the leptons are. -/
theorem C1_multiplicity_gate (isSame : DressedLepton → DressedLepton → Bool)
    (mass : FourMomentum → ℚ) (_h : Histos) (ls : Particles)
    (h2 : ls.length ≠ 2) (h3 : ls.length ≠ 3) (h4 : ls.length ≠ 4) :
    analyze isSame mass _h ls = _h := by
  apply analyze_of_length_out
  omega

/-- C1, evaluated on an event of five leptons. -/
theorem C1_multiplicity_gate_witness :
    ([lep 11 (-1) 50, lep (-11) 1 45, lep 13 (-1) 40, lep (-13) 1 35, lep 11 (-1) 30].length ≠ 2
      ∧ [lep 11 (-1) 50, lep (-11) 1 45, lep 13 (-1) 40, lep (-13) 1 35, lep 11 (-1) 30].length ≠ 3
      ∧ [lep 11 (-1) 50, lep (-11) 1 45, lep 13 (-1) 40, lep (-13) 1 35,
          lep 11 (-1) 30].length ≠ 4) ∧
    analyze samePidMom restMass init
      [lep 11 (-1) 50, lep (-11) 1 45, lep 13 (-1) 40, lep (-13) 1 35, lep 11 (-1) 30] = init :=
  ⟨⟨by decide, by decide, by decide⟩,
    C1_multiplicity_gate samePidMom restMass init _ (by decide) (by decide) (by decide)⟩

/-- C2: if the event, of any multiplicity, contains two leptons (two particles that are not
the same one) whose codes sum to zero and whose combined invariant mass is strictly below
4.0, then analyze leaves all three histograms exactly as they were, whatever the rest of
the event looks like. -/
theorem C2_low_mass_veto (isSame : DressedLepton → DressedLepton → Bool)
    (mass : FourMomentum → ℚ) (_h : Histos) (ls : Particles) (l1 l2 : DressedLepton)
    (h1 : l1 ∈ ls) (h2 : l2 ∈ ls) (hd : isSame l1 l2 = false) (hs : l1.pid + l2.pid = 0)
    (hm : mass (l1.momentum + l2.momentum) < 4) :
    analyze isSame mass _h ls = _h :=
  analyze_of_veto isSame mass _h ls
    ((lowMassVeto_eq_true_iff isSame mass ls).2 ⟨l1, h1, l2, h2, hd, hs, hm⟩)

/-- C2, evaluated on an opposite-charge electron pair of mass 3, which would fill WW were
it not vetoed. -/
theorem C2_low_mass_veto_witness :
    (lep 11 (-1) 1 ∈ [lep 11 (-1) 1, lep (-11) 1 2] ∧
      lep (-11) 1 2 ∈ [lep 11 (-1) 1, lep (-11) 1 2] ∧
      samePidMom (lep 11 (-1) 1) (lep (-11) 1 2) = false ∧
      (lep 11 (-1) 1).pid + (lep (-11) 1 2).pid = 0 ∧
      restMass ((lep 11 (-1) 1).momentum + (lep (-11) 1 2).momentum) < 4 ∧
      (lep 11 (-1) 1).charge + (lep (-11) 1 2).charge = 0) ∧
    analyze samePidMom restMass init [lep 11 (-1) 1, lep (-11) 1 2] = init :=
  ⟨⟨by simp, by simp, by decide, by decide, by rw [restMass_lep_add]; norm_num,
      by simp [lep]⟩,
    C2_low_mass_veto samePidMom restMass init _ (lep 11 (-1) 1) (lep (-11) 1 2)
      (by simp) (by simp) (by decide) (by decide) (by rw [restMass_lep_add]; norm_num)⟩

/-- C3: one call of analyze either leaves the three histograms as they were or adds exactly
one unit fill at 5.020 to exactly one of them (WW, WZ or ZZ), the other two staying as they
were; in every case no histogram loses an entry or weight. -/
theorem C3_at_most_one_fill (isSame : DressedLepton → DressedLepton → Bool)
    (mass : FourMomentum → ℚ) (_h : Histos) (ls : Particles) :
    (analyze isSame mass _h ls = _h ∨
      analyze isSame mass _h ls = { _h with h511 := _h.h511.fill 5.020 } ∨
      analyze isSame mass _h ls = { _h with h517 := _h.h517.fill 5.020 } ∨
      analyze isSame mass _h ls = { _h with h5113 := _h.h5113.fill 5.020 }) ∧
    (_h.h511.numEntries ≤ (analyze isSame mass _h ls).h511.numEntries ∧
      _h.h517.numEntries ≤ (analyze isSame mass _h ls).h517.numEntries ∧
      _h.h5113.numEntries ≤ (analyze isSame mass _h ls).h5113.numEntries) ∧
    (_h.h511.sumW ≤ (analyze isSame mass _h ls).h511.sumW ∧
      _h.h517.sumW ≤ (analyze isSame mass _h ls).h517.sumW ∧
      _h.h5113.sumW ≤ (analyze isSame mass _h ls).h5113.sumW) := by
  have key : analyze isSame mass _h ls = _h ∨
      analyze isSame mass _h ls = { _h with h511 := _h.h511.fill 5.020 } ∨
      analyze isSame mass _h ls = { _h with h517 := _h.h517.fill 5.020 } ∨
      analyze isSame mass _h ls = { _h with h5113 := _h.h5113.fill 5.020 } := by
    by_cases hv : lowMassVeto isSame mass ls = true
    · exact Or.inl (analyze_of_veto isSame mass _h ls hv)
    · have hv2 : lowMassVeto isSame mass ls = false := by simpa using hv
      match ls, hv2 with
      | [], _ => exact Or.inl (analyze_of_length_out _ _ _ _ (by simp))
      | [_], _ => exact Or.inl (analyze_of_length_out _ _ _ _ (by simp))
      | [l0, l1], hv2 =>
        rw [analyze_two isSame mass _h l0 l1 hv2]
        split_ifs
        · exact Or.inr (Or.inl rfl)
        · exact Or.inl rfl
      | [l0, l1, l2], hv2 =>
        rw [analyze_three isSame mass _h l0 l1 l2 hv2]
        split_ifs
        · exact Or.inr (Or.inr (Or.inl rfl))
        · exact Or.inl rfl
      | [l0, l1, l2, l3], hv2 =>
        rw [analyze_four isSame mass _h l0 l1 l2 l3 hv2]
        split_ifs
        · exact Or.inr (Or.inr (Or.inr rfl))
        · exact Or.inl rfl
      | _ :: _ :: _ :: _ :: _ :: _, _ =>
        exact Or.inl (analyze_of_length_out _ _ _ _ (by simp))
  refine ⟨key, ?_⟩
  rcases key with e | e | e | e <;> rw [e] <;>
    simp [Histo1D.numEntries_fill, Histo1D.sumW_fill]

/-- C4: for a two-lepton event that the low-mass veto does not reject, if the two charges
sum to zero then WW (histogram 511) receives exactly one fill at 5.020 and WZ and ZZ are as
they were, whatever the two codes are (same flavor or not); if the charges do not sum to
zero, no histogram changes. -/
theorem C4_WW_selection (isSame : DressedLepton → DressedLepton → Bool)
    (mass : FourMomentum → ℚ) (_h : Histos) (l0 l1 : DressedLepton)
    (hv : lowMassVeto isSame mass [l0, l1] = false) :
    (l0.charge + l1.charge = 0 →
      analyze isSame mass _h [l0, l1] = { _h with h511 := _h.h511.fill 5.020 }) ∧
    (l0.charge + l1.charge ≠ 0 → analyze isSame mass _h [l0, l1] = _h) := by
  rw [analyze_two isSame mass _h l0 l1 hv]
  constructor
  · intro hc
    rw [if_pos hc]
  · intro hc
    rw [if_neg hc]

/-- C4, evaluated on the different-flavor pair with codes +11 and -13 and on a same-charge
pair. -/
theorem C4_WW_selection_witness :
    (lowMassVeto samePidMom restMass [lep 11 (-1) 50, lep (-13) 1 40] = false ∧
      (lep 11 (-1) 50).charge + (lep (-13) 1 40).charge = 0 ∧
      analyze samePidMom restMass init [lep 11 (-1) 50, lep (-13) 1 40] =
        { init with h511 := init.h511.fill 5.020 }) ∧
    (lowMassVeto samePidMom restMass [lep 11 (-1) 50, lep 13 (-1) 40] = false ∧
      (lep 11 (-1) 50).charge + (lep 13 (-1) 40).charge ≠ 0 ∧
      analyze samePidMom restMass init [lep 11 (-1) 50, lep 13 (-1) 40] = init) :=
  ⟨⟨by decide, by simp [lep],
      (C4_WW_selection samePidMom restMass init (lep 11 (-1) 50) (lep (-13) 1 40)
        (by decide)).1 (by simp [lep])⟩,
    ⟨by decide, by norm_num [lep],
      (C4_WW_selection samePidMom restMass init (lep 11 (-1) 50) (lep 13 (-1) 40)
        (by decide)).2 (by norm_num [lep])⟩⟩

/-- C5: for a three-lepton event that the low-mass veto does not reject, WZ (histogram 517)
receives one fill at 5.020 if and only if the absolute value of the sum of the three codes
is 11 or 13 and at least one of the pairs (0,1), (0,2), (1,2) has codes summing to zero and
a mass strictly between 60 and 120; otherwise WZ is as it was; WW and ZZ are never changed
by a three-lepton event. -/
theorem C5_WZ_selection (isSame : DressedLepton → DressedLepton → Bool)
    (mass : FourMomentum → ℚ) (_h : Histos) (l0 l1 l2 : DressedLepton)
    (hv : lowMassVeto isSame mass [l0, l1, l2] = false) :
    ((analyze isSame mass _h [l0, l1, l2]).h517 = _h.h517.fill 5.020 ↔
      (|l0.pid + l1.pid + l2.pid| = 11 ∨ |l0.pid + l1.pid + l2.pid| = 13) ∧
      ((l0.pid + l1.pid = 0 ∧ 60 < mass (l0.momentum + l1.momentum) ∧
          mass (l0.momentum + l1.momentum) < 120) ∨
       (l0.pid + l2.pid = 0 ∧ 60 < mass (l0.momentum + l2.momentum) ∧
          mass (l0.momentum + l2.momentum) < 120) ∨
       (l1.pid + l2.pid = 0 ∧ 60 < mass (l1.momentum + l2.momentum) ∧
          mass (l1.momentum + l2.momentum) < 120))) ∧
    ((analyze isSame mass _h [l0, l1, l2]).h517 = _h.h517.fill 5.020 ∨
      (analyze isSame mass _h [l0, l1, l2]).h517 = _h.h517) ∧
    (analyze isSame mass _h [l0, l1, l2]).h511 = _h.h511 ∧
    (analyze isSame mass _h [l0, l1, l2]).h5113 = _h.h5113 := by
  rw [analyze_three isSame mass _h l0 l1 l2 hv, ← onshellZ3_eq_true_iff]
  by_cases hz : onshellZ3 mass l0 l1 l2 = true
  · rw [if_pos hz]
    exact ⟨⟨fun _ => hz, fun _ => rfl⟩, Or.inl rfl, rfl, rfl⟩
  · rw [if_neg hz]
    exact ⟨⟨fun e => absurd e.symm (Histo1D.fill_ne _ _), fun e => absurd e hz⟩,
      Or.inr rfl, rfl, rfl⟩

/-- C5, evaluated on an event where only pair (0,2) is a Z candidate. -/
theorem C5_WZ_selection_witness :
    lowMassVeto samePidMom restMass [lep 13 (-1) 50, lep 11 (-1) 45, lep (-13) 1 41] = false ∧
    (((analyze samePidMom restMass init
          [lep 13 (-1) 50, lep 11 (-1) 45, lep (-13) 1 41]).h517 = init.h517.fill 5.020 ↔
      (|(lep 13 (-1) 50).pid + (lep 11 (-1) 45).pid + (lep (-13) 1 41).pid| = 11 ∨
        |(lep 13 (-1) 50).pid + (lep 11 (-1) 45).pid + (lep (-13) 1 41).pid| = 13) ∧
      (((lep 13 (-1) 50).pid + (lep 11 (-1) 45).pid = 0 ∧
          60 < restMass ((lep 13 (-1) 50).momentum + (lep 11 (-1) 45).momentum) ∧
          restMass ((lep 13 (-1) 50).momentum + (lep 11 (-1) 45).momentum) < 120) ∨
       ((lep 13 (-1) 50).pid + (lep (-13) 1 41).pid = 0 ∧
          60 < restMass ((lep 13 (-1) 50).momentum + (lep (-13) 1 41).momentum) ∧
          restMass ((lep 13 (-1) 50).momentum + (lep (-13) 1 41).momentum) < 120) ∨
       ((lep 11 (-1) 45).pid + (lep (-13) 1 41).pid = 0 ∧
          60 < restMass ((lep 11 (-1) 45).momentum + (lep (-13) 1 41).momentum) ∧
          restMass ((lep 11 (-1) 45).momentum + (lep (-13) 1 41).momentum) < 120))) ∧
    ((analyze samePidMom restMass init
          [lep 13 (-1) 50, lep 11 (-1) 45, lep (-13) 1 41]).h517 = init.h517.fill 5.020 ∨
      (analyze samePidMom restMass init
          [lep 13 (-1) 50, lep 11 (-1) 45, lep (-13) 1 41]).h517 = init.h517) ∧
    (analyze samePidMom restMass init
        [lep 13 (-1) 50, lep 11 (-1) 45, lep (-13) 1 41]).h511 = init.h511 ∧
    (analyze samePidMom restMass init
        [lep 13 (-1) 50, lep 11 (-1) 45, lep (-13) 1 41]).h5113 = init.h5113) :=
  ⟨by norm_num [lowMassVeto, lowMassPair, samePidMom, lep, restMass, FourMomentum.add_E],
    C5_WZ_selection samePidMom restMass init (lep 13 (-1) 50) (lep 11 (-1) 45)
      (lep (-13) 1 41)
      (by norm_num [lowMassVeto, lowMassPair, samePidMom, lep, restMass, FourMomentum.add_E])⟩

/-- C6: for a four-lepton event that the low-mass veto does not reject, ZZ (histogram 5113)
receives one fill at 5.020 if and only if the four codes sum to zero and, for at least one
of the pairings (0,1)&(2,3), (0,2)&(1,3), (0,3)&(1,2), both pairs have codes summing to
zero and both pair masses lie strictly between 60 and 120; otherwise ZZ is as it was; WW
and WZ are never changed by a four-lepton event. -/
theorem C6_ZZ_selection (isSame : DressedLepton → DressedLepton → Bool)
    (mass : FourMomentum → ℚ) (_h : Histos) (l0 l1 l2 l3 : DressedLepton)
    (hv : lowMassVeto isSame mass [l0, l1, l2, l3] = false) :
    ((analyze isSame mass _h [l0, l1, l2, l3]).h5113 = _h.h5113.fill 5.020 ↔
      l0.pid + l1.pid + l2.pid + l3.pid = 0 ∧
      (((l0.pid + l1.pid = 0 ∧ l2.pid + l3.pid = 0) ∧
          (60 < mass (l0.momentum + l1.momentum) ∧ mass (l0.momentum + l1.momentum) < 120) ∧
          (60 < mass (l2.momentum + l3.momentum) ∧ mass (l2.momentum + l3.momentum) < 120)) ∨
       ((l0.pid + l2.pid = 0 ∧ l1.pid + l3.pid = 0) ∧
          (60 < mass (l0.momentum + l2.momentum) ∧ mass (l0.momentum + l2.momentum) < 120) ∧
          (60 < mass (l1.momentum + l3.momentum) ∧ mass (l1.momentum + l3.momentum) < 120)) ∨
       ((l0.pid + l3.pid = 0 ∧ l1.pid + l2.pid = 0) ∧
          (60 < mass (l0.momentum + l3.momentum) ∧ mass (l0.momentum + l3.momentum) < 120) ∧
          (60 < mass (l1.momentum + l2.momentum) ∧
            mass (l1.momentum + l2.momentum) < 120)))) ∧
    ((analyze isSame mass _h [l0, l1, l2, l3]).h5113 = _h.h5113.fill 5.020 ∨
      (analyze isSame mass _h [l0, l1, l2, l3]).h5113 = _h.h5113) ∧
    (analyze isSame mass _h [l0, l1, l2, l3]).h511 = _h.h511 ∧
    (analyze isSame mass _h [l0, l1, l2, l3]).h517 = _h.h517 := by
  have hcond : (l0.pid + l1.pid + l2.pid + l3.pid = 0 ∧
      (((l0.pid + l1.pid = 0 ∧ l2.pid + l3.pid = 0) ∧
          (60 < mass (l0.momentum + l1.momentum) ∧ mass (l0.momentum + l1.momentum) < 120) ∧
          (60 < mass (l2.momentum + l3.momentum) ∧ mass (l2.momentum + l3.momentum) < 120)) ∨
       ((l0.pid + l2.pid = 0 ∧ l1.pid + l3.pid = 0) ∧
          (60 < mass (l0.momentum + l2.momentum) ∧ mass (l0.momentum + l2.momentum) < 120) ∧
          (60 < mass (l1.momentum + l3.momentum) ∧ mass (l1.momentum + l3.momentum) < 120)) ∨
       ((l0.pid + l3.pid = 0 ∧ l1.pid + l2.pid = 0) ∧
          (60 < mass (l0.momentum + l3.momentum) ∧ mass (l0.momentum + l3.momentum) < 120) ∧
          (60 < mass (l1.momentum + l2.momentum) ∧
            mass (l1.momentum + l2.momentum) < 120)))) ↔
      onshellZ4 mass l0 l1 l2 l3 = true := by
    rw [onshellZ4_eq_true_iff]
    constructor
    · rintro ⟨ht, hp⟩
      refine ⟨ht, ?_⟩
      rcases hp with ⟨⟨ha, _⟩, hm⟩ | ⟨⟨ha, _⟩, hm⟩ | ⟨⟨ha, _⟩, hm⟩
      · exact Or.inl ⟨ha, hm⟩
      · exact Or.inr (Or.inl ⟨ha, hm⟩)
      · exact Or.inr (Or.inr ⟨ha, hm⟩)
    · rintro ⟨ht, hp⟩
      refine ⟨ht, ?_⟩
      rcases hp with ⟨ha, hm⟩ | ⟨ha, hm⟩ | ⟨ha, hm⟩
      · exact Or.inl ⟨⟨ha, by omega⟩, hm⟩
      · exact Or.inr (Or.inl ⟨⟨ha, by omega⟩, hm⟩)
      · exact Or.inr (Or.inr ⟨⟨ha, by omega⟩, hm⟩)
  rw [analyze_four isSame mass _h l0 l1 l2 l3 hv, hcond]
  by_cases hz : onshellZ4 mass l0 l1 l2 l3 = true
  · rw [if_pos hz]
    exact ⟨⟨fun _ => hz, fun _ => rfl⟩, Or.inl rfl, rfl, rfl⟩
  · rw [if_neg hz]
    exact ⟨⟨fun e => absurd e.symm (Histo1D.fill_ne _ _), fun e => absurd e hz⟩,
      Or.inr rfl, rfl, rfl⟩

/-- C6, evaluated on an event whose only good pairing is (0,2)&(1,3). -/
theorem C6_ZZ_selection_witness :
    lowMassVeto samePidMom restMass
      [lep 11 (-1) 50, lep 13 (-1) 45, lep (-11) 1 40, lep (-13) 1 35] = false ∧
    (analyze samePidMom restMass init
      [lep 11 (-1) 50, lep 13 (-1) 45, lep (-11) 1 40, lep (-13) 1 35]).h5113 =
        init.h5113.fill 5.020 :=
  ⟨by norm_num [lowMassVeto, lowMassPair, samePidMom, lep, restMass, FourMomentum.add_E],
    (C6_ZZ_selection samePidMom restMass init (lep 11 (-1) 50) (lep 13 (-1) 45)
      (lep (-11) 1 40) (lep (-13) 1 35)
      (by norm_num [lowMassVeto, lowMassPair, samePidMom, lep, restMass,
        FourMomentum.add_E])).1.2
      (by norm_num [lep, restMass, FourMomentum.add_E])⟩

/-- C7: finalize scales the three histograms by one and the same factor norm. With a
non-zero weight sum, norm is the cross section in picobarn (crossSection / picobarn, which
is crossSection itself when the unit picobarn is 1) divided by sumOfWeights, and the value
of every histogram is multiplied by it; a cross section of 1000 pb with a weight sum of 500
doubles every value. With a zero weight sum, norm is 1 and every histogram is exactly as it
was before finalize. -/
theorem C7_finalize_norm (crossSection picobarn sumOfWeights : ℚ) (_h : Histos) :
    (sumOfWeights ≠ 0 →
      finalize crossSection picobarn sumOfWeights _h =
        { h511 := _h.h511.scale (crossSection / picobarn / sumOfWeights),
          h517 := _h.h517.scale (crossSection / picobarn / sumOfWeights),
          h5113 := _h.h5113.scale (crossSection / picobarn / sumOfWeights) } ∧
      (finalize crossSection picobarn sumOfWeights _h).h511.sumW =
        _h.h511.sumW * (crossSection / picobarn / sumOfWeights) ∧
      (finalize crossSection picobarn sumOfWeights _h).h517.sumW =
        _h.h517.sumW * (crossSection / picobarn / sumOfWeights) ∧
      (finalize crossSection picobarn sumOfWeights _h).h5113.sumW =
        _h.h5113.sumW * (crossSection / picobarn / sumOfWeights)) ∧
    (sumOfWeights ≠ 0 → picobarn = 1 →
      (finalize crossSection picobarn sumOfWeights _h).h511.sumW =
        _h.h511.sumW * (crossSection / sumOfWeights) ∧
      (finalize crossSection picobarn sumOfWeights _h).h517.sumW =
        _h.h517.sumW * (crossSection / sumOfWeights) ∧
      (finalize crossSection picobarn sumOfWeights _h).h5113.sumW =
        _h.h5113.sumW * (crossSection / sumOfWeights)) ∧
    (crossSection / picobarn = 1000 → sumOfWeights = 500 →
      (finalize crossSection picobarn sumOfWeights _h).h511.sumW = _h.h511.sumW * 2 ∧
      (finalize crossSection picobarn sumOfWeights _h).h517.sumW = _h.h517.sumW * 2 ∧
      (finalize crossSection picobarn sumOfWeights _h).h5113.sumW = _h.h5113.sumW * 2) ∧
    (sumOfWeights = 0 →
      finalize crossSection picobarn sumOfWeights _h =
        { h511 := _h.h511.scale 1, h517 := _h.h517.scale 1, h5113 := _h.h5113.scale 1 } ∧
      finalize crossSection picobarn sumOfWeights _h = _h) := by
  have one : (1.0 : ℚ) = 1 := by norm_num
  refine ⟨fun hw => ?_, fun hw hp => ?_, fun hx hw => ?_, fun hw => ?_⟩
  · simp only [finalize, if_pos hw, Histo1D.sumW_scale, and_self]
  · subst hp
    simp only [finalize, if_pos hw, Histo1D.sumW_scale, div_one, and_self]
  · have hw0 : sumOfWeights ≠ 0 := by rw [hw]; norm_num
    have hn : crossSection / picobarn / sumOfWeights = 2 := by rw [hx, hw]; norm_num
    simp only [finalize, if_pos hw0, Histo1D.sumW_scale, hn, and_self]
  · have hw0 : ¬ sumOfWeights ≠ 0 := fun hne => hne hw
    simp only [finalize, if_neg hw0, one, Histo1D.scale_one, and_self]

/-- C7, evaluated on histograms holding three, one and no fill: cross section 1000 pb with
weight sum 500, and the same histograms with weight sum 0. -/
theorem C7_finalize_norm_witness :
    ((500 : ℚ) ≠ 0 ∧ (1 : ℚ) = 1 ∧ (1000 : ℚ) / 1 = 1000 ∧ (500 : ℚ) = 500 ∧
      (finalize 1000 1 500 ⟨⟨[(5.020, 1), (5.020, 1), (5.020, 1)]⟩, ⟨[(5.020, 1)]⟩,
        ⟨[]⟩⟩).h511.sumW =
        (Histo1D.mk [(5.020, 1), (5.020, 1), (5.020, 1)]).sumW * 2) ∧
    ((0 : ℚ) = 0 ∧
      finalize 1000 1 0 ⟨⟨[(5.020, 1), (5.020, 1), (5.020, 1)]⟩, ⟨[(5.020, 1)]⟩, ⟨[]⟩⟩ =
        ⟨⟨[(5.020, 1), (5.020, 1), (5.020, 1)]⟩, ⟨[(5.020, 1)]⟩, ⟨[]⟩⟩) :=
  ⟨⟨by norm_num, rfl, by norm_num, rfl,
      ((C7_finalize_norm 1000 1 500 ⟨⟨[(5.020, 1), (5.020, 1), (5.020, 1)]⟩, ⟨[(5.020, 1)]⟩,
        ⟨[]⟩⟩).2.2.1 (by norm_num) rfl).1⟩,
    ⟨rfl,
      ((C7_finalize_norm 1000 1 0 ⟨⟨[(5.020, 1), (5.020, 1), (5.020, 1)]⟩, ⟨[(5.020, 1)]⟩,
        ⟨[]⟩⟩).2.2.2 rfl).2⟩⟩

/-- C8: all mass comparisons are strict. An event in which every pair of leptons with codes
summing to zero has a mass of exactly 4.0 is not rejected by the low-mass veto. A
three-lepton event in which every pair with codes summing to zero has a mass of exactly 60
or exactly 120 changes no histogram (no WZ fill), and a four-lepton event in which every
pairing whose pair with lepton 0 has codes summing to zero contains a pair of mass exactly
60 or exactly 120 changes no histogram (no ZZ fill). -/
theorem C8_strict_boundaries (isSame : DressedLepton → DressedLepton → Bool)
    (mass : FourMomentum → ℚ) (_h : Histos) :
    (∀ ls : Particles,
      (∀ l1 ∈ ls, ∀ l2 ∈ ls, l1.pid + l2.pid = 0 → mass (l1.momentum + l2.momentum) = 4) →
      lowMassVeto isSame mass ls = false) ∧
    (∀ l0 l1 l2 : DressedLepton,
      (l0.pid + l1.pid = 0 →
        mass (l0.momentum + l1.momentum) = 60 ∨ mass (l0.momentum + l1.momentum) = 120) →
      (l0.pid + l2.pid = 0 →
        mass (l0.momentum + l2.momentum) = 60 ∨ mass (l0.momentum + l2.momentum) = 120) →
      (l1.pid + l2.pid = 0 →
        mass (l1.momentum + l2.momentum) = 60 ∨ mass (l1.momentum + l2.momentum) = 120) →
      analyze isSame mass _h [l0, l1, l2] = _h) ∧
    (∀ l0 l1 l2 l3 : DressedLepton,
      (l0.pid + l1.pid = 0 →
        (mass (l0.momentum + l1.momentum) = 60 ∨ mass (l0.momentum + l1.momentum) = 120) ∨
        (mass (l2.momentum + l3.momentum) = 60 ∨ mass (l2.momentum + l3.momentum) = 120)) →
      (l0.pid + l2.pid = 0 →
        (mass (l0.momentum + l2.momentum) = 60 ∨ mass (l0.momentum + l2.momentum) = 120) ∨
        (mass (l1.momentum + l3.momentum) = 60 ∨ mass (l1.momentum + l3.momentum) = 120)) →
      (l0.pid + l3.pid = 0 →
        (mass (l0.momentum + l3.momentum) = 60 ∨ mass (l0.momentum + l3.momentum) = 120) ∨
        (mass (l1.momentum + l2.momentum) = 60 ∨ mass (l1.momentum + l2.momentum) = 120)) →
      analyze isSame mass _h [l0, l1, l2, l3] = _h) := by
  refine ⟨?_, ?_, ?_⟩
  · intro ls hall
    rw [Bool.eq_false_iff]
    intro hv
    obtain ⟨l1, h1, l2, h2, -, hs, hm⟩ := (lowMassVeto_eq_true_iff isSame mass ls).1 hv
    rw [hall l1 h1 l2 h2 hs] at hm
    exact lt_irrefl _ hm
  · intro l0 l1 l2 h01 h02 h12
    by_cases hv : lowMassVeto isSame mass [l0, l1, l2] = true
    · exact analyze_of_veto isSame mass _h _ hv
    · have hv2 : lowMassVeto isSame mass [l0, l1, l2] = false := by simpa using hv
      have hz : ¬ onshellZ3 mass l0 l1 l2 = true := by
        rw [onshellZ3_eq_true_iff]
        rintro ⟨-, ⟨hs, hlo, hhi⟩ | ⟨hs, hlo, hhi⟩ | ⟨hs, hlo, hhi⟩⟩
        · rcases h01 hs with e | e <;> linarith
        · rcases h02 hs with e | e <;> linarith
        · rcases h12 hs with e | e <;> linarith
      rw [analyze_three isSame mass _h l0 l1 l2 hv2, if_neg hz]
  · intro l0 l1 l2 l3 h01 h02 h03
    by_cases hv : lowMassVeto isSame mass [l0, l1, l2, l3] = true
    · exact analyze_of_veto isSame mass _h _ hv
    · have hv2 : lowMassVeto isSame mass [l0, l1, l2, l3] = false := by simpa using hv
      have hz : ¬ onshellZ4 mass l0 l1 l2 l3 = true := by
        rw [onshellZ4_eq_true_iff]
        rintro ⟨-, ⟨hs, ⟨a1, a2⟩, ⟨b1, b2⟩⟩ | ⟨hs, ⟨a1, a2⟩, ⟨b1, b2⟩⟩ |
          ⟨hs, ⟨a1, a2⟩, ⟨b1, b2⟩⟩⟩
        · rcases h01 hs with (e | e) | (e | e) <;> linarith
        · rcases h02 hs with (e | e) | (e | e) <;> linarith
        · rcases h03 hs with (e | e) | (e | e) <;> linarith
      rw [analyze_four isSame mass _h l0 l1 l2 l3 hv2, if_neg hz]

/-- C8, evaluated on an electron pair of mass exactly 4.0 (not vetoed), on a three-lepton
event whose muon pair has mass exactly 60 and on a four-lepton event whose electron pair
has mass exactly 120. -/
theorem C8_strict_boundaries_witness :
    ((∀ l1 ∈ [lep 11 (-1) 2, lep (-11) 1 2], ∀ l2 ∈ [lep 11 (-1) 2, lep (-11) 1 2],
        l1.pid + l2.pid = 0 → restMass (l1.momentum + l2.momentum) = 4) ∧
      lowMassVeto samePidMom restMass [lep 11 (-1) 2, lep (-11) 1 2] = false) ∧
    (restMass ((lep 13 (-1) 30).momentum + (lep (-13) 1 30).momentum) = 60 ∧
      analyze samePidMom restMass init [lep 13 (-1) 30, lep (-13) 1 30, lep 11 (-1) 20] =
        init) ∧
    (restMass ((lep 11 (-1) 60).momentum + (lep (-11) 1 60).momentum) = 120 ∧
      analyze samePidMom restMass init
        [lep 11 (-1) 60, lep (-11) 1 60, lep 13 (-1) 45, lep (-13) 1 45] = init) :=
  ⟨⟨by norm_num [lep, restMass, FourMomentum.add_E],
      (C8_strict_boundaries samePidMom restMass init).1 _
        (by norm_num [lep, restMass, FourMomentum.add_E])⟩,
    ⟨by norm_num [lep, restMass, FourMomentum.add_E],
      (C8_strict_boundaries samePidMom restMass init).2.1 _ _ _
        (by norm_num [lep, restMass, FourMomentum.add_E])
        (by norm_num [lep, restMass, FourMomentum.add_E])
        (by norm_num [lep, restMass, FourMomentum.add_E])⟩,
    ⟨by norm_num [lep, restMass, FourMomentum.add_E],
      (C8_strict_boundaries samePidMom restMass init).2.2 _ _ _ _
        (by norm_num [lep, restMass, FourMomentum.add_E])
        (by norm_num [lep, restMass, FourMomentum.add_E])
        (by norm_num [lep, restMass, FourMomentum.add_E])⟩⟩

/-- C9: a four-lepton event with codes (+11, -11, +13, -13) in that order in which the
masses of pair (0,1) and of pair (2,3) both lie strictly between 60 and 120 adds exactly
one fill at 5.020 to ZZ (histogram 5113) and leaves WW and WZ as they were, whatever the
charges, the momenta, the identity test and the masses of all the other pairs are. -/
theorem C9_ZZ_literal (isSame : DressedLepton → DressedLepton → Bool)
    (mass : FourMomentum → ℚ) (_h : Histos) (c0 c1 c2 c3 : ℚ) (p0 p1 p2 p3 : FourMomentum)
    (h01 : 60 < mass (p0 + p1) ∧ mass (p0 + p1) < 120)
    (h23 : 60 < mass (p2 + p3) ∧ mass (p2 + p3) < 120) :
    analyze isSame mass _h [⟨11, c0, p0⟩, ⟨-11, c1, p1⟩, ⟨13, c2, p2⟩, ⟨-13, c3, p3⟩] =
      { _h with h5113 := _h.h5113.fill 5.020 } := by
  have h10 : 60 < mass (p1 + p0) := by rw [FourMomentum.add_comm]; exact h01.1
  have h32 : 60 < mass (p3 + p2) := by rw [FourMomentum.add_comm]; exact h23.1
  have hv : lowMassVeto isSame mass
      [⟨11, c0, p0⟩, ⟨-11, c1, p1⟩, ⟨13, c2, p2⟩, ⟨-13, c3, p3⟩] = false := by
    rw [Bool.eq_false_iff]
    intro hv
    obtain ⟨a, ha, b, hb, -, hs, hm⟩ := (lowMassVeto_eq_true_iff isSame mass _).1 hv
    simp only [List.mem_cons, List.mem_singleton, List.not_mem_nil, or_false] at ha hb
    rcases ha with rfl | rfl | rfl | rfl <;> rcases hb with rfl | rfl | rfl | rfl <;>
      first
        | (exfalso; revert hs; norm_num; done)
        | (dsimp only at hm; linarith [h01.1, h23.1])
  have hz : onshellZ4 mass ⟨11, c0, p0⟩ ⟨-11, c1, p1⟩ ⟨13, c2, p2⟩ ⟨-13, c3, p3⟩ = true := by
    rw [onshellZ4_eq_true_iff]
    exact ⟨by norm_num, Or.inl ⟨by norm_num, h01, h23⟩⟩
  rw [analyze_four isSame mass _h _ _ _ _ hv, if_pos hz]

/-- C9, evaluated with masses 90 for pair (0,1) and 95 for pair (2,3), and with an identity
test that calls no two leptons the same. -/
theorem C9_ZZ_literal_witness :
    ((60 < restMass (⟨50, 0, 0, 0⟩ + ⟨40, 0, 0, 0⟩) ∧
        restMass (⟨50, 0, 0, 0⟩ + ⟨40, 0, 0, 0⟩) < 120) ∧
      (60 < restMass (⟨55, 0, 0, 0⟩ + ⟨40, 0, 0, 0⟩) ∧
        restMass (⟨55, 0, 0, 0⟩ + ⟨40, 0, 0, 0⟩) < 120)) ∧
    analyze (fun _ _ => false) restMass init
      [⟨11, -1, ⟨50, 0, 0, 0⟩⟩, ⟨-11, 1, ⟨40, 0, 0, 0⟩⟩, ⟨13, -1, ⟨55, 0, 0, 0⟩⟩,
        ⟨-13, 1, ⟨40, 0, 0, 0⟩⟩] = { init with h5113 := init.h5113.fill 5.020 } :=
  ⟨⟨by norm_num [restMass, FourMomentum.add_E], by norm_num [restMass, FourMomentum.add_E]⟩,
    C9_ZZ_literal (fun _ _ => false) restMass init (-1) 1 (-1) 1 ⟨50, 0, 0, 0⟩ ⟨40, 0, 0, 0⟩
      ⟨55, 0, 0, 0⟩ ⟨40, 0, 0, 0⟩ (by norm_num [restMass, FourMomentum.add_E])
      (by norm_num [restMass, FourMomentum.add_E])⟩

/-- C10: a three-lepton event with codes (+13, -13, +11) in that order in which the mass of
pair (0,1) lies strictly between 60 and 120 passes the code-sum gate (the sum is +11) and
adds exactly one fill at 5.020 to WZ (histogram 517), leaving WW and ZZ as they were,
whatever the charges, the momenta, the identity test and the masses of pairs (0,2) and
(1,2) are. -/
theorem C10_WZ_literal (isSame : DressedLepton → DressedLepton → Bool)
    (mass : FourMomentum → ℚ) (_h : Histos) (c0 c1 c2 : ℚ) (p0 p1 p2 : FourMomentum)
    (h01 : 60 < mass (p0 + p1) ∧ mass (p0 + p1) < 120) :
    (DressedLepton.mk 13 c0 p0).pid + (DressedLepton.mk (-13) c1 p1).pid +
      (DressedLepton.mk 11 c2 p2).pid = 11 ∧
    analyze isSame mass _h [⟨13, c0, p0⟩, ⟨-13, c1, p1⟩, ⟨11, c2, p2⟩] =
      { _h with h517 := _h.h517.fill 5.020 } := by
  have h10 : 60 < mass (p1 + p0) := by rw [FourMomentum.add_comm]; exact h01.1
  have hv : lowMassVeto isSame mass [⟨13, c0, p0⟩, ⟨-13, c1, p1⟩, ⟨11, c2, p2⟩] = false := by
    rw [Bool.eq_false_iff]
    intro hv
    obtain ⟨a, ha, b, hb, -, hs, hm⟩ := (lowMassVeto_eq_true_iff isSame mass _).1 hv
    simp only [List.mem_cons, List.mem_singleton, List.not_mem_nil, or_false] at ha hb
    rcases ha with rfl | rfl | rfl <;> rcases hb with rfl | rfl | rfl <;>
      first
        | (exfalso; revert hs; norm_num; done)
        | (dsimp only at hm; linarith [h01.1])
  have hz : onshellZ3 mass ⟨13, c0, p0⟩ ⟨-13, c1, p1⟩ ⟨11, c2, p2⟩ = true := by
    rw [onshellZ3_eq_true_iff]
    exact ⟨Or.inl (by norm_num), Or.inl ⟨by norm_num, h01⟩⟩
  refine ⟨by norm_num, ?_⟩
  rw [analyze_three isSame mass _h _ _ _ hv, if_pos hz]

/-- C10, evaluated with a muon pair of mass 91 and pairs (0,2) and (1,2) of mass 3 and 92. -/
theorem C10_WZ_literal_witness :
    (60 < restMass (⟨1, 0, 0, 0⟩ + ⟨90, 0, 0, 0⟩) ∧
      restMass (⟨1, 0, 0, 0⟩ + ⟨90, 0, 0, 0⟩) < 120) ∧
    (DressedLepton.mk 13 (-1) ⟨1, 0, 0, 0⟩).pid + (DressedLepton.mk (-13) 1 ⟨90, 0, 0, 0⟩).pid +
      (DressedLepton.mk 11 (-1) ⟨2, 0, 0, 0⟩).pid = 11 ∧
    analyze samePidMom restMass init
      [⟨13, -1, ⟨1, 0, 0, 0⟩⟩, ⟨-13, 1, ⟨90, 0, 0, 0⟩⟩, ⟨11, -1, ⟨2, 0, 0, 0⟩⟩] =
      { init with h517 := init.h517.fill 5.020 } :=
  ⟨by norm_num [restMass, FourMomentum.add_E],
    C10_WZ_literal samePidMom restMass init (-1) 1 (-1) ⟨1, 0, 0, 0⟩ ⟨90, 0, 0, 0⟩
      ⟨2, 0, 0, 0⟩ (by norm_num [restMass, FourMomentum.add_E])⟩

/-- C11: the effect of analyze is a fixed increment determined by the event alone: for every
state s and event e, analyze(s, e) is s plus d(e), where d(e) is what analyze produces from
the empty histograms and does not depend on s. Analysing the same event twice adds the
increment twice: the second call makes the same decision as the first, and the value of
every histogram grows by twice the value of its increment. -/
theorem C11_fixed_increment (isSame : DressedLepton → DressedLepton → Bool)
    (mass : FourMomentum → ℚ) (s : Histos) (e : Particles) :
    analyze isSame mass s e = s.add (analyze isSame mass init e) ∧
    analyze isSame mass (analyze isSame mass s e) e =
      (s.add (analyze isSame mass init e)).add (analyze isSame mass init e) ∧
    ((analyze isSame mass (analyze isSame mass s e) e).h511.sumW =
        s.h511.sumW + 2 * (analyze isSame mass init e).h511.sumW ∧
      (analyze isSame mass (analyze isSame mass s e) e).h517.sumW =
        s.h517.sumW + 2 * (analyze isSame mass init e).h517.sumW ∧
      (analyze isSame mass (analyze isSame mass s e) e).h5113.sumW =
        s.h5113.sumW + 2 * (analyze isSame mass init e).h5113.sumW) := by
  have h1 := analyze_eq_add_init isSame mass s e
  have h2 := analyze_eq_add_init isSame mass (analyze isSame mass s e) e
  refine ⟨h1, ?_, ?_⟩
  · rw [h2, h1]
  · rw [h2, h1]
    simp only [Histos.add, Histo1D.sumW_add]
    refine ⟨by ring, by ring, by ring⟩

/-- C12: for two leptons whose codes are each one of +11, -11, +13, -13, the test of line
50, that the two codes sum to zero, holds if and only if the two have the same flavor
(equal absolute codes) and opposite sign; it never holds for one electron code and one muon
code. -/
theorem C12_sfos_test (l1 l2 : DressedLepton)
    (h1 : isLeptonCode l1.pid = true) (h2 : isLeptonCode l2.pid = true) :
    (l1.pid + l2.pid = 0 ↔
      |l1.pid| = |l2.pid| ∧ ((0 < l1.pid ∧ l2.pid < 0) ∨ (l1.pid < 0 ∧ 0 < l2.pid))) ∧
    (|l1.pid| = 11 → |l2.pid| = 13 → l1.pid + l2.pid ≠ 0) ∧
    (|l1.pid| = 13 → |l2.pid| = 11 → l1.pid + l2.pid ≠ 0) := by
  rw [isLeptonCode_iff] at h1 h2
  generalize l1.pid = a at h1 h2 ⊢
  generalize l2.pid = b at h2 ⊢
  rcases h1 with rfl | rfl | rfl | rfl <;> rcases h2 with rfl | rfl | rfl | rfl <;>
    norm_num

/-- C12, evaluated on an electron and a positron. -/
theorem C12_sfos_test_witness :
    (isLeptonCode (lep 11 (-1) 50).pid = true ∧ isLeptonCode (lep (-11) 1 40).pid = true) ∧
    ((lep 11 (-1) 50).pid + (lep (-11) 1 40).pid = 0 ↔
      |(lep 11 (-1) 50).pid| = |(lep (-11) 1 40).pid| ∧
        ((0 < (lep 11 (-1) 50).pid ∧ (lep (-11) 1 40).pid < 0) ∨
          ((lep 11 (-1) 50).pid < 0 ∧ 0 < (lep (-11) 1 40).pid))) :=
  ⟨⟨by decide, by decide⟩,
    (C12_sfos_test (lep 11 (-1) 50) (lep (-11) 1 40) (by decide) (by decide)).1⟩

/-- C13: for three leptons whose codes are each one of +11, -11, +13, -13, the absolute
value of the sum of the three codes is 11 or 13 if and only if two of the three have codes
summing to zero; and when two codes sum to zero, the sum of the three codes is the code of
the remaining lepton. -/
theorem C13_three_code_gate (l0 l1 l2 : DressedLepton)
    (h0 : isLeptonCode l0.pid = true) (h1 : isLeptonCode l1.pid = true)
    (h2 : isLeptonCode l2.pid = true) :
    ((|l0.pid + l1.pid + l2.pid| = 11 ∨ |l0.pid + l1.pid + l2.pid| = 13) ↔
      (l0.pid + l1.pid = 0 ∨ l0.pid + l2.pid = 0 ∨ l1.pid + l2.pid = 0)) ∧
    (l0.pid + l1.pid = 0 → l0.pid + l1.pid + l2.pid = l2.pid) ∧
    (l0.pid + l2.pid = 0 → l0.pid + l1.pid + l2.pid = l1.pid) ∧
    (l1.pid + l2.pid = 0 → l0.pid + l1.pid + l2.pid = l0.pid) := by
  rw [isLeptonCode_iff] at h0 h1 h2
  generalize l0.pid = a at h0 h1 h2 ⊢
  generalize l1.pid = b at h1 h2 ⊢
  generalize l2.pid = c at h2 ⊢
  rcases h0 with rfl | rfl | rfl | rfl <;> rcases h1 with rfl | rfl | rfl | rfl <;>
    rcases h2 with rfl | rfl | rfl | rfl <;> norm_num

/-- C13, evaluated on the codes (+13, -13, +11), whose sum is +11. -/
theorem C13_three_code_gate_witness :
    (isLeptonCode (lep 13 (-1) 50).pid = true ∧ isLeptonCode (lep (-13) 1 41).pid = true ∧
      isLeptonCode (lep 11 (-1) 45).pid = true) ∧
    ((lep 13 (-1) 50).pid + (lep (-13) 1 41).pid = 0 →
      (lep 13 (-1) 50).pid + (lep (-13) 1 41).pid + (lep 11 (-1) 45).pid =
        (lep 11 (-1) 45).pid) :=
  ⟨⟨by decide, by decide, by decide⟩,
    (C13_three_code_gate (lep 13 (-1) 50) (lep (-13) 1 41) (lep 11 (-1) 45) (by decide)
      (by decide) (by decide)).2.1⟩

/-- C14: on an event of leptons (codes accepted by the cut of `init`: +11, -11, +13, -13),
with an identity test that only ever identifies two particles of the same code, the double
loop of the code over all ordered pairs, skipping the pairs the identity test identifies,
rejects the event if and only if one pass over the unordered pairs of positions `i < j`
finds a pair with codes summing to zero and mass below 4.0. The symmetry of the pair mass
needs no assumption: the mass is taken of the sum of the two momenta, which does not depend
on the order. That the identity test holds for a lepton compared with itself is not needed
either: a lepton paired with itself has a code sum different from zero. -/
theorem C14_veto_refines_unordered (isSame : DressedLepton → DressedLepton → Bool)
    (mass : FourMomentum → ℚ) (ls : Particles)
    (hsame : ∀ a b : DressedLepton, isSame a b = true → a.pid = b.pid)
    (hc : ∀ l ∈ ls, isLeptonCode l.pid = true) :
    lowMassVeto isSame mass ls = unorderedLowMassVeto mass ls := by
  rw [Bool.eq_iff_iff, lowMassVeto_eq_true_iff, unorderedLowMassVeto_eq_true_iff]
  constructor
  · rintro ⟨l1, h1, l2, h2, -, hs, hm⟩
    have hne := lepton_code_ne_zero _ (hc l1 h1)
    obtain ⟨i, hi, rfl⟩ := List.getElem_of_mem h1
    obtain ⟨j, hj, rfl⟩ := List.getElem_of_mem h2
    rcases Nat.lt_trichotomy i j with hij | hij | hij
    · exact ⟨i, j, hi, hj, hij, hs, hm⟩
    · subst hij
      exact absurd hs (by omega)
    · refine ⟨j, i, hj, hi, hij, by omega, ?_⟩
      rw [FourMomentum.add_comm]
      exact hm
  · rintro ⟨i, j, hi, hj, hij, hs, hm⟩
    have hne := lepton_code_ne_zero _ (hc ls[i] (List.getElem_mem hi))
    refine ⟨ls[i], List.getElem_mem hi, ls[j], List.getElem_mem hj, ?_, hs, hm⟩
    rw [Bool.eq_false_iff]
    intro hsm
    have hp := hsame _ _ hsm
    omega

/-- C14, evaluated with the identity test that compares code and momentum, on an event
with an electron-positron pair of mass 3 and a muon, which both forms of the veto reject,
and on the same event with the pair at mass 90, which neither rejects. -/
theorem C14_veto_refines_unordered_witness :
    ((∀ a b : DressedLepton, samePidMom a b = true → a.pid = b.pid) ∧
      (∀ l ∈ [lep 11 (-1) 1, lep (-11) 1 2, lep 13 (-1) 40], isLeptonCode l.pid = true)) ∧
    (lowMassVeto samePidMom restMass [lep 11 (-1) 1, lep (-11) 1 2, lep 13 (-1) 40] =
        unorderedLowMassVeto restMass [lep 11 (-1) 1, lep (-11) 1 2, lep 13 (-1) 40] ∧
      unorderedLowMassVeto restMass [lep 11 (-1) 1, lep (-11) 1 2, lep 13 (-1) 40] = true) ∧
    (lowMassVeto samePidMom restMass [lep 11 (-1) 50, lep (-11) 1 40, lep 13 (-1) 40] =
        unorderedLowMassVeto restMass [lep 11 (-1) 50, lep (-11) 1 40, lep 13 (-1) 40] ∧
      unorderedLowMassVeto restMass [lep 11 (-1) 50, lep (-11) 1 40, lep 13 (-1) 40] =
        false) :=
  ⟨⟨fun a b h => by
        simp only [samePidMom, Bool.and_eq_true, decide_eq_true_eq] at h
        exact h.1,
      by decide⟩,
    ⟨C14_veto_refines_unordered samePidMom restMass _
        (fun a b h => by
          simp only [samePidMom, Bool.and_eq_true, decide_eq_true_eq] at h
          exact h.1)
        (by decide),
      by norm_num [unorderedLowMassVeto, lep, restMass, FourMomentum.add_E]⟩,
    ⟨C14_veto_refines_unordered samePidMom restMass _
        (fun a b h => by
          simp only [samePidMom, Bool.and_eq_true, decide_eq_true_eq] at h
          exact h.1)
        (by decide),
      by norm_num [unorderedLowMassVeto, lep, restMass, FourMomentum.add_E]⟩⟩

/-- C15: the outcome of analyze does not depend on the order of the leptons: for every
event and every permutation of its lepton list, analyze returns the same histograms (the
same one filled, or none). In the four-lepton case this covers the test of the code sum of
only the pair that contains lepton 0. The symmetry of the pair mass holds in this model,
where the mass is taken of the sum of the two momenta. -/
theorem C15_order_independent (isSame : DressedLepton → DressedLepton → Bool)
    (mass : FourMomentum → ℚ) (_h : Histos) (ls ls' : Particles) (hp : ls.Perm ls') :
    analyze isSame mass _h ls = analyze isSame mass _h ls' :=
  analyze_perm_append isSame mass _h hp []

/-- C15, evaluated on a four-lepton event whose only good pairing is (0,2)&(1,3) and on a
reordering in which that pairing is (0,3)&(1,2). -/
theorem C15_order_independent_witness :
    [lep 11 (-1) 50, lep 13 (-1) 45, lep (-11) 1 40, lep (-13) 1 35].Perm
      [lep 13 (-1) 45, lep 11 (-1) 50, lep (-11) 1 40, lep (-13) 1 35] ∧
    analyze samePidMom restMass init
        [lep 11 (-1) 50, lep 13 (-1) 45, lep (-11) 1 40, lep (-13) 1 35] =
      analyze samePidMom restMass init
        [lep 13 (-1) 45, lep 11 (-1) 50, lep (-11) 1 40, lep (-13) 1 35] :=
  ⟨List.Perm.swap _ _ _,
    C15_order_independent samePidMom restMass init _ _ (List.Perm.swap _ _ _)⟩

/-- C16: when every lepton code of the event is one of +11, -11, +13, -13, the code-sum
gate of the three-lepton block is redundant: the analysis that omits the gate and only runs
the three pair tests returns the same histograms as analyze, so it fills WZ on exactly the
same events. -/
theorem C16_gate_redundant (isSame : DressedLepton → DressedLepton → Bool)
    (mass : FourMomentum → ℚ) (_h : Histos) (ls : Particles)
    (hc : ∀ l ∈ ls, isLeptonCode l.pid = true) :
    analyze isSame mass _h ls = analyzeNoGate isSame mass _h ls := by
  have key : ∀ h' : Histos, analyzeWZ mass h' ls = analyzeWZNoGate mass h' ls := by
    intro h'
    rcases ls with _ | ⟨a, _ | ⟨b, _ | ⟨c, _ | ⟨d, t⟩⟩⟩⟩
    · rfl
    · rfl
    · rfl
    · simp only [analyzeWZ, analyzeWZNoGate]
      rw [onshellZ3_eq_noGate mass a b c (hc a (by simp)) (hc b (by simp)) (hc c (by simp))]
    · rfl
  unfold analyze analyzeNoGate
  simp only [key]

/-- C16, evaluated on a three-lepton event with a muon pair of mass 91. -/
theorem C16_gate_redundant_witness :
    (∀ l ∈ [lep 13 (-1) 50, lep (-13) 1 41, lep 11 (-1) 45], isLeptonCode l.pid = true) ∧
    analyze samePidMom restMass init [lep 13 (-1) 50, lep (-13) 1 41, lep 11 (-1) 45] =
      analyzeNoGate samePidMom restMass init
        [lep 13 (-1) 50, lep (-13) 1 41, lep 11 (-1) 45] :=
  ⟨by decide, C16_gate_redundant samePidMom restMass init _ (by decide)⟩

/-- C17: when every lepton of the event has a code among +11, -11, +13, -13 and the charge
that code determines (-1 for +11 and +13, +1 for -11 and -13), an event that fills WW or ZZ
has total lepton charge 0 and an event that fills WZ has total lepton charge +1 or -1. -/
theorem C17_net_charge (isSame : DressedLepton → DressedLepton → Bool)
    (mass : FourMomentum → ℚ) (_h : Histos) (ls : Particles)
    (hc : ∀ l ∈ ls, chargeFromCode l) :
    ((analyze isSame mass _h ls).h511 ≠ _h.h511 → totalCharge ls = 0) ∧
    ((analyze isSame mass _h ls).h517 ≠ _h.h517 → totalCharge ls = 1 ∨ totalCharge ls = -1) ∧
    ((analyze isSame mass _h ls).h5113 ≠ _h.h5113 → totalCharge ls = 0) := by
  by_cases hv : lowMassVeto isSame mass ls = true
  · rw [analyze_of_veto isSame mass _h ls hv]
    exact ⟨fun h => absurd rfl h, fun h => absurd rfl h, fun h => absurd rfl h⟩
  · have hv2 : lowMassVeto isSame mass ls = false := by simpa using hv
    rcases ls with _ | ⟨a, _ | ⟨b, _ | ⟨c, _ | ⟨d, _ | ⟨e, t⟩⟩⟩⟩⟩
    · rw [analyze_of_length_out _ _ _ _ (by simp)]
      exact ⟨fun h => absurd rfl h, fun h => absurd rfl h, fun h => absurd rfl h⟩
    · rw [analyze_of_length_out _ _ _ _ (by simp)]
      exact ⟨fun h => absurd rfl h, fun h => absurd rfl h, fun h => absurd rfl h⟩
    · rw [analyze_two isSame mass _h a b hv2]
      by_cases hq : a.charge + b.charge = 0
      · rw [if_pos hq]
        refine ⟨fun _ => ?_, fun h => absurd rfl h, fun h => absurd rfl h⟩
        simp only [totalCharge, List.map_cons, List.map_nil, List.sum_cons, List.sum_nil]
        linarith
      · rw [if_neg hq]
        exact ⟨fun h => absurd rfl h, fun h => absurd rfl h, fun h => absurd rfl h⟩
    · rw [analyze_three isSame mass _h a b c hv2]
      by_cases hz : onshellZ3 mass a b c = true
      · rw [if_pos hz]
        refine ⟨fun h => absurd rfl h, fun _ => ?_, fun h => absurd rfl h⟩
        have ha := hc a (by simp)
        have hb := hc b (by simp)
        have hcc := hc c (by simp)
        simp only [totalCharge, List.map_cons, List.map_nil, List.sum_cons, List.sum_nil]
        rcases ((onshellZ3_eq_true_iff mass a b c).1 hz).2 with ⟨hs, -⟩ | ⟨hs, -⟩ | ⟨hs, -⟩
        · have h0 := charge_cancel a b ha hb hs
          rcases charge_unit c hcc with h1 | h1
          · left; linarith
          · right; linarith
        · have h0 := charge_cancel a c ha hcc hs
          rcases charge_unit b hb with h1 | h1
          · left; linarith
          · right; linarith
        · have h0 := charge_cancel b c hb hcc hs
          rcases charge_unit a ha with h1 | h1
          · left; linarith
          · right; linarith
      · rw [if_neg hz]
        exact ⟨fun h => absurd rfl h, fun h => absurd rfl h, fun h => absurd rfl h⟩
    · rw [analyze_four isSame mass _h a b c d hv2]
      by_cases hz : onshellZ4 mass a b c d = true
      · rw [if_pos hz]
        refine ⟨fun h => absurd rfl h, fun h => absurd rfl h, fun _ => ?_⟩
        have ha := hc a (by simp)
        have hb := hc b (by simp)
        have hcc := hc c (by simp)
        have hd := hc d (by simp)
        simp only [totalCharge, List.map_cons, List.map_nil, List.sum_cons, List.sum_nil]
        obtain ⟨ht, hp⟩ := (onshellZ4_eq_true_iff mass a b c d).1 hz
        rcases hp with ⟨hs, -⟩ | ⟨hs, -⟩ | ⟨hs, -⟩
        · have h0 := charge_cancel a b ha hb hs
          have h1 := charge_cancel c d hcc hd (by omega)
          linarith
        · have h0 := charge_cancel a c ha hcc hs
          have h1 := charge_cancel b d hb hd (by omega)
          linarith
        · have h0 := charge_cancel a d ha hd hs
          have h1 := charge_cancel b c hb hcc (by omega)
          linarith
      · rw [if_neg hz]
        exact ⟨fun h => absurd rfl h, fun h => absurd rfl h, fun h => absurd rfl h⟩
    · rw [analyze_of_length_out _ _ _ _ (by simp)]
      exact ⟨fun h => absurd rfl h, fun h => absurd rfl h, fun h => absurd rfl h⟩

/-- C17, evaluated on a three-lepton event that fills WZ: two muons of opposite charge and
an electron, of total charge -1. -/
theorem C17_net_charge_witness :
    (∀ l ∈ [lep 13 (-1) 50, lep (-13) 1 41, lep 11 (-1) 45], chargeFromCode l) ∧
    (analyze samePidMom restMass init
        [lep 13 (-1) 50, lep (-13) 1 41, lep 11 (-1) 45]).h517 ≠ init.h517 ∧
    (totalCharge [lep 13 (-1) 50, lep (-13) 1 41, lep 11 (-1) 45] = 1 ∨
      totalCharge [lep 13 (-1) 50, lep (-13) 1 41, lep 11 (-1) 45] = -1) :=
  ⟨by simp [chargeFromCode, lep],
    by norm_num [analyze, lowMassVeto, lowMassPair, samePidMom, analyzeWW, analyzeWZ,
      analyzeZZ, onshellZ3, lep, restMass, FourMomentum.add_E, init, Histo1D.fill],
    (C17_net_charge samePidMom restMass init _ (by simp [chargeFromCode, lep])).2.1
      (by norm_num [analyze, lowMassVeto, lowMassPair, samePidMom, analyzeWW, analyzeWZ,
        analyzeZZ, onshellZ3, lep, restMass, FourMomentum.add_E, init, Histo1D.fill])⟩

end Rivet
